import Mathlib

/-!
Verification development for the Miyawaki Forest Planner backend
(src/backend/server.py).

Embedding conventions.  MongoDB collections become Lean lists of records;
the handlers' filters become the same filters on those lists.  The store
primitives are modelled after Motor/MongoDB semantics: find_one is
List.find?, update_one updates the first matching document, delete_one
removes the first matching document, delete_many keeps the non-matching
documents, insert_one appends.  Python floats are modelled as rationals
(the decimal literals 0.3048, 0.0254, 0.1 .. 0.4 are taken at their
decimal value) and the Python int(...) conversion as truncation toward
zero.  HTTP failures are the exact (status_code, detail) pairs raised by
the handlers.  bcrypt hashing/verification and the JWT wire format are
external libraries: hashing is an abstract function parameter, and a
bearer token is modelled by its decoded content (subject claim, expiry
timestamp) together with a flag saying whether its signature/format
verifies under the server key.  The character class the re module gives
the digit metacharacter of the phone regex (every Unicode Nd decimal
digit) is likewise an abstract function parameter, constrained only by
the explicitly hypothesised facts that it contains the ASCII digits and
not the newline.  The static mock tables (species, weather,
soil guidance, learning resources), the random visualization URL, the
float square root in plot_dimensions and the fixed growth-timeline
strings are not needed by any claim and are omitted from the records.
-/

namespace Miya

/-- PlantingMethod enum of server.py. -/
inductive PlantingMethod
  | ground
  | terrace
  deriving DecidableEq, Repr

/-- UnitType enum of server.py. -/
inductive UnitType
  | meter
  | feet
  | inch
  deriving DecidableEq, Repr

/-- SoilType enum of server.py. -/
inductive SoilType
  | clay
  | sandy
  | loam
  | rocky
  deriving DecidableEq, Repr

/-- AlertType enum of server.py. -/
inductive AlertType
  | weather
  | damage
  | maintenance
  | disease
  deriving DecidableEq, Repr

/-- An HTTPException as raised by the handlers: status code and detail. -/
structure HTTPError where
  status : Nat
  detail : String
  deriving DecidableEq, Repr

/-- Default notification_settings of the User model (all channels on). -/
structure NotificationSettings where
  weather_alerts : Bool
  maintenance_reminders : Bool
  damage_alerts : Bool
  sms_enabled : Bool
  email_enabled : Bool
  deriving DecidableEq, Repr

/-- User record (users collection).  Timestamps are irrelevant to the
claims and omitted. -/
structure User where
  id : String
  name : String
  age : Nat
  email : String
  phone_number : String
  password_hash : String
  notification_settings : NotificationSettings
  is_verified : Bool
  deriving DecidableEq, Repr

/-- Location record (locations collection). -/
structure Location where
  id : String
  latitude : ℚ
  longitude : ℚ
  address : String
  city : String
  state : String
  country : String
  user_id : String
  deriving DecidableEq, Repr

/-- The visualization dictionary built by generate_3d_visualization,
flattened.  The plot_dimensions square-root entries, the per-layer color
strings, the random visualization_url and the fixed growth_timeline text
are omitted (no claim concerns them). -/
structure Visualization where
  area_meters : ℚ
  total_plants : ℤ
  density_per_sqm : ℤ
  spacing : String
  canopy_count : ℤ
  canopy_height_range : String
  sub_canopy_count : ℤ
  sub_canopy_height_range : String
  shrub_count : ℤ
  shrub_height_range : String
  ground_count : ℤ
  ground_height_range : String
  terrace_levels : Nat
  drainage_system : String
  deriving DecidableEq, Repr

/-- PlotDesign record (plots collection).  The layout_config summary is
omitted (no claim concerns it). -/
structure PlotDesign where
  id : String
  user_id : String
  location_id : String
  plot_size : ℚ
  unit_type : UnitType
  planting_method : PlantingMethod
  soil_type : SoilType
  selected_species : List String
  visualization_3d : Visualization
  deriving DecidableEq, Repr

/-- PlantationProject record (projects collection). -/
structure PlantationProject where
  id : String
  user_id : String
  plot_design_id : String
  project_name : String
  manager_name : String
  manager_phone : String
  status : String
  deriving DecidableEq, Repr

/-- Alert record (alerts collection). -/
structure Alert where
  id : String
  user_id : String
  project_id : String
  alert_type : AlertType
  severity : String
  message : String
  resolved : Bool
  sms_sent : Bool
  deriving DecidableEq, Repr

/-- SMSAlert record (sms_alerts collection). -/
structure SMSAlert where
  id : String
  user_id : String
  phone_number : String
  message : String
  status : String
  deriving DecidableEq, Repr

/-- The document store: one list per collection used by server.py. -/
structure DB where
  users : List User
  locations : List Location
  plots : List PlotDesign
  projects : List PlantationProject
  alerts : List Alert
  sms_alerts : List SMSAlert
  deriving Repr

/-- Mongo update_one: rewrite the first document matching the filter. -/
def updateOne (p : α → Bool) (f : α → α) : List α → List α
  | [] => []
  | x :: xs => if p x then f x :: xs else x :: updateOne p f xs

/-- Mongo delete_one: drop the first document matching the filter. -/
def deleteOne (p : α → Bool) : List α → List α
  | [] => []
  | x :: xs => if p x then xs else x :: deleteOne p xs

/-- Python int(q) for a rational q: truncation toward zero (int(-1.2) is
-1 while floor gives -2). -/
def pyInt (q : ℚ) : ℤ :=
  if q < 0 then -⌊-q⌋ else ⌊q⌋

/-- convert_to_meters of server.py, lines 312-319. -/
def convert_to_meters (value : ℚ) (unit : UnitType) : ℚ :=
  if unit = UnitType.feet then value * 0.3048
  else if unit = UnitType.inch then value * 0.0254
  else value

/-- generate_3d_visualization of server.py, lines 321-383.  Density is 6
for terrace, 4 otherwise; total_plants is int(size * density); each layer
count is int(total_plants * share) with shares 0.1 / 0.2 / 0.3 / 0.4,
computed independently and never reconciled against total_plants. -/
def generate_3d_visualization (plot_size_meters : ℚ)
    (selected_species : List String) (planting_method : PlantingMethod) :
    Visualization :=
  let planting_density : ℤ :=
    if planting_method = PlantingMethod.terrace then 6 else 4
  let total_plants : ℤ := pyInt (plot_size_meters * (planting_density : ℚ))
  { area_meters := plot_size_meters
    total_plants := total_plants
    density_per_sqm := planting_density
    spacing :=
      if planting_method = PlantingMethod.ground then "0.5m x 0.5m"
      else "0.4m x 0.4m"
    canopy_count := pyInt ((total_plants : ℚ) * 0.1)
    canopy_height_range := "15-30m"
    sub_canopy_count := pyInt ((total_plants : ℚ) * 0.2)
    sub_canopy_height_range := "5-15m"
    shrub_count := pyInt ((total_plants : ℚ) * 0.3)
    shrub_height_range := "1-5m"
    ground_count := pyInt ((total_plants : ℚ) * 0.4)
    ground_height_range := "0-1m"
    terrace_levels := if planting_method = PlantingMethod.terrace then 3 else 0
    drainage_system :=
      if planting_method = PlantingMethod.terrace then
        "Terraced with proper drainage"
      else "Ground level drainage" }

/-- JWT settings of server.py: ACCESS_TOKEN_EXPIRE_MINUTES = 30. -/
def ACCESS_TOKEN_EXPIRE_MINUTES : Nat := 30

/-- A bearer token as seen by the server after transport: the decoded
subject claim (payload.get of sub, absent when the claim is missing), the
expiry timestamp in seconds, and whether the signature and format verify
under the server SECRET_KEY (jwt.decode raises when they do not). -/
structure BearerToken where
  sub : Option String
  exp : Nat
  well_signed : Bool
  deriving DecidableEq, Repr

/-- The exceptions jwt.decode can raise that server.py catches. -/
inductive JwtError
  | ExpiredSignatureError
  | JWTError
  deriving DecidableEq, Repr

/-- Behaviour of jwt.decode(token, SECRET_KEY, algorithms) at time now:
signature/format failure raises JWTError, an expiry claim in the past
raises ExpiredSignatureError, otherwise the payload is returned. -/
def jwt_decode (t : BearerToken) (now : Nat) : Except JwtError (Option String) :=
  if t.well_signed = false then Except.error JwtError.JWTError
  else if t.exp < now then Except.error JwtError.ExpiredSignatureError
  else Except.ok t.sub

/-- create_access_token of server.py, lines 242-250: signs sub with the
server key and an expiry of now plus the given lifetime in minutes. -/
def create_access_token (sub : String) (now : Nat) (expires_minutes : Nat) :
    BearerToken :=
  { sub := some sub, exp := now + expires_minutes * 60, well_signed := true }

/-- get_current_user of server.py, lines 257-267: decode the credential,
return the sub claim, mapping a missing sub to 401 Invalid authentication
credentials, ExpiredSignatureError to 401 Token expired and JWTError to
401 Invalid token.  No database access happens here. -/
def get_current_user (t : BearerToken) (now : Nat) : Except HTTPError String :=
  match jwt_decode t now with
  | Except.ok (some user_id) => Except.ok user_id
  | Except.ok none => Except.error ⟨401, "Invalid authentication credentials"⟩
  | Except.error JwtError.ExpiredSignatureError =>
      Except.error ⟨401, "Token expired"⟩
  | Except.error JwtError.JWTError => Except.error ⟨401, "Invalid token"⟩

/-- The authentication dependency as every protected route invokes it:
the process owns a database handle, but get_current_user never touches
it, so the handle is a dead parameter. -/
def authenticate_in_state (db : DB) (t : BearerToken) (now : Nat) :
    Except HTTPError String :=
  get_current_user t now

/-- A claim C1 amendment artifact, worded from the amended specification:
authentication succeeds exactly when the signature verifies, the token is
unexpired and a subject claim is present, returning that subject; there
is no check that the subject resolves to a stored Identity. -/
def authenticate_amended_spec (t : BearerToken) (now : Nat) :
    Except HTTPError String :=
  if t.well_signed = false then Except.error ⟨401, "Invalid token"⟩
  else if t.exp < now then Except.error ⟨401, "Token expired"⟩
  else
    match t.sub with
    | none => Except.error ⟨401, "Invalid authentication credentials"⟩
    | some user_id => Except.ok user_id

/-- ASCII decimal digit: the plain reading of the word digit in the
specification sentence optional leading plus then 1 to 16 digits. -/
def isAsciiDigit (c : Char) : Bool :=
  decide (48 ≤ c.toNat) && decide (c.toNat ≤ 57)

/-- A digit of the regex class 1-9: that class is a literal code-point
range, so it is exactly the ASCII digits one through nine. -/
def isDigit19 (c : Char) : Bool :=
  decide (49 ≤ c.toNat) && decide (c.toNat ≤ 57)

/-- Consume the optional leading plus sign of the phone regex. -/
def stripPlus : List Char → List Char
  | [] => []
  | c :: rest => if c = '+' then rest else c :: rest

/-- The mandatory part of the phone regex of server.py line 254: one
digit 1-9 followed by zero to fifteen characters of the digit class d,
then the end of the matched text.  The parameter d stands for the
character class the re module gives the metacharacter backslash-d in a
str pattern: every Unicode decimal digit (category Nd).  Like the bcrypt
calls, that external-library table is kept abstract; the only facts the
development uses about it are that it contains the ASCII digits and not
the newline, both stated as explicit hypotheses where needed, and both
true of the Nd class. -/
def matchesPhoneCore (d : Char → Bool) : List Char → Bool
  | [] => false
  | c :: rest =>
      isDigit19 c && decide (rest.length ≤ 15) && rest.all d

/-- Remove a single trailing newline when present: the position where
the regex dollar anchor is also allowed to assert in the re module. -/
def stripTrailingNewline (cs : List Char) : List Char :=
  if cs.getLast? = some '\n' then cs.dropLast else cs

/-- validate_phone_number of server.py, lines 252-255: full match of the
anchored pattern of an optional plus sign, one digit 1-9, then zero to
fifteen further characters of the digit class d (see matchesPhoneCore).
Following the re module, the final dollar anchor matches at the end of
the string or just before one newline that ends the string, so the
pattern also accepts a body followed by a single trailing newline. -/
def validate_phone_number (d : Char → Bool) (phone : String) : Bool :=
  matchesPhoneCore d (stripPlus phone.data) ||
    (decide (phone.data.getLast? = some '\n') &&
      matchesPhoneCore d (stripPlus phone.data.dropLast))

/-- The phone shape exactly as the specification words it: an optional
leading plus sign followed by 1 to 16 digits. -/
def specPhonePattern (phone : String) : Bool :=
  let digits := stripPlus phone.data
  decide (1 ≤ digits.length) && decide (digits.length ≤ 16) &&
    digits.all isAsciiDigit

/-- The amended digit body over the digit class d: 1 to 16 characters of
class d, the first of which is an ASCII digit one through nine. -/
def amendedPhoneCore (d : Char → Bool) (digits : List Char) : Bool :=
  decide (1 ≤ digits.length) && decide (digits.length ≤ 16) &&
    digits.all d &&
    (match digits with
     | c :: _ => isDigit19 c
     | [] => false)

/-- The amended phone shape: after discarding one trailing newline when
present, an optional leading plus sign followed by 1 to 16 decimal
digits of the class d, the first of which is an ASCII digit one through
nine. -/
def amendedPhonePattern (d : Char → Bool) (phone : String) : Bool :=
  amendedPhoneCore d (stripPlus (stripTrailingNewline phone.data))

/-- A concrete digit class used to instantiate the parametric phone
theorems in closed statements: the ASCII digits together with the
Arabic-Indic digits (code points 1632 to 1641).  It is not claimed to be
all of Nd; it merely shares with the class the re module uses the facts
the theorems hypothesise (ASCII digits in, newline out) and agrees with
it on every character the closed statements exercise. -/
def sampleDigitClass (c : Char) : Bool :=
  (decide (48 ≤ c.toNat) && decide (c.toNat ≤ 57)) ||
    (decide (1632 ≤ c.toNat) && decide (c.toNat ≤ 1641))

/-- Request body of POST /api/auth/register. -/
structure UserCreate where
  name : String
  age : Nat
  email : String
  phone_number : String
  password : String
  deriving DecidableEq, Repr

/-- register of server.py, lines 386-416.  hash_fn stands for the bcrypt
hash_password call and d for the regex digit class (both external
libraries); new_id for the generated uuid.  Order of checks is the
source order: duplicate email first, then the phone format, then the
insert and token issue. -/
def register (hash_fn : String → String) (d : Char → Bool) (db : DB)
    (user_data : UserCreate) (new_id : String) (now : Nat) :
    Except HTTPError (DB × BearerToken × String) :=
  if (db.users.find? (fun u => u.email == user_data.email)).isSome then
    Except.error ⟨400, "Email already registered"⟩
  else if validate_phone_number d user_data.phone_number = false then
    Except.error ⟨400, "Invalid phone number format"⟩
  else
    let user : User :=
      { id := new_id
        name := user_data.name
        age := user_data.age
        email := user_data.email
        phone_number := user_data.phone_number
        password_hash := hash_fn user_data.password
        notification_settings := ⟨true, true, true, true, true⟩
        is_verified := false }
    let token := create_access_token new_id now ACCESS_TOKEN_EXPIRE_MINUTES
    Except.ok ({ db with users := db.users ++ [user] }, token, new_id)

/-- login of server.py, lines 418-431: find the user by email; a missing
user or a failing bcrypt check both raise the same 401 Invalid
credentials; otherwise a fresh 30-minute token is issued.  verify_fn
stands for the bcrypt checkpw call. -/
def login (verify_fn : String → String → Bool) (db : DB)
    (email password : String) (now : Nat) : Except HTTPError BearerToken :=
  match db.users.find? (fun u => u.email == email) with
  | none => Except.error ⟨401, "Invalid credentials"⟩
  | some user =>
      if verify_fn password user.password_hash = false then
        Except.error ⟨401, "Invalid credentials"⟩
      else
        Except.ok (create_access_token user.id now ACCESS_TOKEN_EXPIRE_MINUTES)

/-- delete_user_account of server.py, lines 455-465: delete_one on users
by id, then delete_many by user_id on locations, plots, projects, alerts
and sms_alerts. -/
def delete_user_account (db : DB) (user_id : String) : DB :=
  { users := deleteOne (fun u => u.id == user_id) db.users
    locations := db.locations.filter (fun l => !(l.user_id == user_id))
    plots := db.plots.filter (fun p => !(p.user_id == user_id))
    projects := db.projects.filter (fun p => !(p.user_id == user_id))
    alerts := db.alerts.filter (fun a => !(a.user_id == user_id))
    sms_alerts := db.sms_alerts.filter (fun s => !(s.user_id == user_id)) }

/-- get_3d_design of server.py, lines 638-645: find_one filtered by both
the plot id and the calling user id; a miss is 404 Plot not found. -/
def get_3d_design (db : DB) (plot_id : String) (user_id : String) :
    Except HTTPError Visualization :=
  match db.plots.find? (fun p => p.id == plot_id && p.user_id == user_id) with
  | none => Except.error ⟨404, "Plot not found"⟩
  | some plot => Except.ok plot.visualization_3d

/-- The project timeline payload: every field except project_id is fixed
text, so only project_id is carried. -/
structure Timeline where
  project_id : String
  deriving DecidableEq, Repr

/-- get_project_timeline of server.py, lines 772-830: find_one filtered
by project id and calling user id; a miss is 404 Project not found. -/
def get_project_timeline (db : DB) (project_id : String) (user_id : String) :
    Except HTTPError Timeline :=
  if (db.projects.find?
      (fun p => p.id == project_id && p.user_id == user_id)).isSome then
    Except.ok ⟨project_id⟩
  else Except.error ⟨404, "Project not found"⟩

/-- resolve_alert of server.py, lines 862-873: update_one filtered by
alert id and calling user id, setting resolved to true; when nothing
matched the response is 404 Alert not found. -/
def resolve_alert (db : DB) (alert_id : String) (user_id : String) :
    Except HTTPError DB :=
  if (db.alerts.find?
      (fun a => a.id == alert_id && a.user_id == user_id)).isSome then
    Except.ok
      { db with
        alerts :=
          updateOne (fun a => a.id == alert_id && a.user_id == user_id)
            (fun a => { a with resolved := true }) db.alerts }
  else Except.error ⟨404, "Alert not found"⟩

/-- Request body of POST /api/alerts. -/
structure AlertCreate where
  project_id : String
  alert_type : AlertType
  severity : String
  message : String
  deriving DecidableEq, Repr

/-- create_alert of server.py, lines 832-848: insert the alert with the
model defaults resolved = false and sms_sent = false, then, when the SMS
delivery reported success, update_one sets sms_sent on the new id. -/
def create_alert (db : DB) (alert : AlertCreate) (user_id : String)
    (new_id : String) (sms_ok : Bool) : DB × Alert :=
  let alert_obj : Alert :=
    { id := new_id
      user_id := user_id
      project_id := alert.project_id
      alert_type := alert.alert_type
      severity := alert.severity
      message := alert.message
      resolved := false
      sms_sent := false }
  let db1 := { db with alerts := db.alerts ++ [alert_obj] }
  if sms_ok then
    ({ db1 with
       alerts := updateOne (fun a => a.id == new_id)
         (fun a => { a with sms_sent := true }) db1.alerts }, alert_obj)
  else (db1, alert_obj)

/-- Every write that server.py ever performs on the alerts collection:
the insert plus sms_sent update of create_alert (the inserts of
simulate-plantation-issues have the same shape), the resolved update of
resolve_alert, and the delete_many of delete_user_account.  No other
route touches db.alerts. -/
inductive AlertOp
  | create (alert : AlertCreate) (user_id : String) (new_id : String)
      (sms_ok : Bool)
  | resolve (alert_id : String) (user_id : String)
  | deleteAccount (user_id : String)

/-- Apply one alert-collection write to the store; a resolve that
matches nothing leaves the store unchanged (the handler only 404s). -/
def applyAlertOp (op : AlertOp) (db : DB) : DB :=
  match op with
  | AlertOp.create alert uid nid ok => (create_alert db alert uid nid ok).1
  | AlertOp.resolve aid uid => ((resolve_alert db aid uid).toOption).getD db
  | AlertOp.deleteAccount uid => delete_user_account db uid

/-- An empty store. -/
def emptyDB : DB := ⟨[], [], [], [], [], []⟩

/-- A sample stored identity used to instantiate proved theorems. -/
def sampleUser : User :=
  { id := "u1"
    name := "Asha"
    age := 30
    email := "asha@example.com"
    phone_number := "+911234567890"
    password_hash := "stored-bcrypt-hash"
    notification_settings := ⟨true, true, true, true, true⟩
    is_verified := false }

/-- A store holding only the sample identity. -/
def sampleDB : DB := ⟨[sampleUser], [], [], [], [], []⟩

/-- A placeholder visualization payload for stored plot records. -/
def dummyViz : Visualization :=
  ⟨0, 0, 0, "", 0, "", 0, "", 0, "", 0, "", 0, ""⟩

/-- A plot record owned by identity bob. -/
def bobPlot : PlotDesign :=
  ⟨"r1", "bob", "loc9", 10, UnitType.meter, PlantingMethod.ground,
    SoilType.loam, [], dummyViz⟩

/-- A project record owned by identity bob. -/
def bobProject : PlantationProject :=
  ⟨"r1", "bob", "pd9", "Grove", "Bob", "+4411223344", "planned"⟩

/-- An alert record owned by identity bob. -/
def bobAlert : Alert :=
  ⟨"r1", "bob", "pj9", AlertType.weather, "high", "storm", false, false⟩

/-- A store whose only resources are owned by bob and share the id r1. -/
def bobDB : DB := ⟨[], [], [bobPlot], [bobProject], [bobAlert], []⟩

/-- A location owned by the sample identity. -/
def ownedLocation : Location :=
  ⟨"l1", 11, 77, "12 Lane", "Pune", "MH", "IN", "u1"⟩

/-- A plot owned by the sample identity. -/
def ownedPlot : PlotDesign :=
  ⟨"p1", "u1", "l1", 77, UnitType.meter, PlantingMethod.terrace,
    SoilType.clay, ["s1"], dummyViz⟩

/-- A project owned by the sample identity. -/
def ownedProject : PlantationProject :=
  ⟨"pj1", "u1", "p1", "Backyard", "Asha", "+911234567890", "planned"⟩

/-- An alert owned by the sample identity. -/
def ownedAlert : Alert :=
  ⟨"a1", "u1", "pj1", AlertType.maintenance, "low", "prune", false, false⟩

/-- A store where the sample identity owns one record per collection. -/
def ownedDB : DB :=
  ⟨[sampleUser], [ownedLocation], [ownedPlot], [ownedProject], [ownedAlert], []⟩

/-- An already-resolved alert. -/
def resolvedAlert : Alert :=
  ⟨"a1", "u1", "pj1", AlertType.damage, "medium", "pests", true, true⟩

/-- A store holding one resolved alert. -/
def resolvedDB : DB := ⟨[], [], [], [], [resolvedAlert], []⟩

/-- Python int truncation agrees with the floor on nonnegative input. -/
lemma pyInt_of_nonneg (q : ℚ) (h : 0 ≤ q) : pyInt q = ⌊q⌋ := by
  rw [pyInt, if_neg (not_lt.mpr h)]

/-- Evaluate pyInt on a nonnegative rational by bracketing it. -/
lemma pyInt_eval (q : ℚ) (z : ℤ) (h0 : 0 ≤ q) (h1 : (z : ℚ) ≤ q)
    (h2 : q < z + 1) : pyInt q = z := by
  rw [pyInt_of_nonneg q h0]
  exact Int.floor_eq_iff.mpr ⟨h1, h2⟩

/-- The total_plants field, unfolded. -/
lemma gen_total (size : ℚ) (sp : List String) (m : PlantingMethod) :
    (generate_3d_visualization size sp m).total_plants =
      pyInt (size * (((if m = PlantingMethod.terrace then 6 else 4) : ℤ) : ℚ)) :=
  rfl

/-- The canopy count field, unfolded. -/
lemma gen_canopy (size : ℚ) (sp : List String) (m : PlantingMethod) :
    (generate_3d_visualization size sp m).canopy_count =
      pyInt (((generate_3d_visualization size sp m).total_plants : ℚ) * 0.1) :=
  rfl

/-- The sub-canopy count field, unfolded. -/
lemma gen_sub_canopy (size : ℚ) (sp : List String) (m : PlantingMethod) :
    (generate_3d_visualization size sp m).sub_canopy_count =
      pyInt (((generate_3d_visualization size sp m).total_plants : ℚ) * 0.2) :=
  rfl

/-- The shrub count field, unfolded. -/
lemma gen_shrub (size : ℚ) (sp : List String) (m : PlantingMethod) :
    (generate_3d_visualization size sp m).shrub_count =
      pyInt (((generate_3d_visualization size sp m).total_plants : ℚ) * 0.3) :=
  rfl

/-- The ground count field, unfolded. -/
lemma gen_ground (size : ℚ) (sp : List String) (m : PlantingMethod) :
    (generate_3d_visualization size sp m).ground_count =
      pyInt (((generate_3d_visualization size sp m).total_plants : ℚ) * 0.4) :=
  rfl

/-- Concrete evaluation: 77 square meters, terrace method, total. -/
lemma terrace77_total :
    (generate_3d_visualization 77 [] PlantingMethod.terrace).total_plants =
      462 := by
  rw [gen_total]
  exact pyInt_eval _ 462 (by norm_num) (by norm_num) (by norm_num)

/-- Concrete evaluation: canopy layer of the 77-terrace plot. -/
lemma terrace77_canopy :
    (generate_3d_visualization 77 [] PlantingMethod.terrace).canopy_count =
      46 := by
  rw [gen_canopy, terrace77_total]
  exact pyInt_eval _ 46 (by norm_num) (by norm_num) (by norm_num)

/-- Concrete evaluation: sub-canopy layer of the 77-terrace plot. -/
lemma terrace77_sub_canopy :
    (generate_3d_visualization 77 [] PlantingMethod.terrace).sub_canopy_count =
      92 := by
  rw [gen_sub_canopy, terrace77_total]
  exact pyInt_eval _ 92 (by norm_num) (by norm_num) (by norm_num)

/-- Concrete evaluation: shrub layer of the 77-terrace plot. -/
lemma terrace77_shrub :
    (generate_3d_visualization 77 [] PlantingMethod.terrace).shrub_count =
      138 := by
  rw [gen_shrub, terrace77_total]
  exact pyInt_eval _ 138 (by norm_num) (by norm_num) (by norm_num)

/-- Concrete evaluation: ground layer of the 77-terrace plot. -/
lemma terrace77_ground :
    (generate_3d_visualization 77 [] PlantingMethod.terrace).ground_count =
      184 := by
  rw [gen_ground, terrace77_total]
  exact pyInt_eval _ 184 (by norm_num) (by norm_num) (by norm_num)

/-- The four independently floored shares of a nonnegative total never
exceed the total, because the shares sum to one. -/
lemma floor_shares_le (n : ℤ) (h : 0 ≤ n) :
    pyInt ((n : ℚ) * 0.1) + pyInt ((n : ℚ) * 0.2) + pyInt ((n : ℚ) * 0.3) +
      pyInt ((n : ℚ) * 0.4) ≤ n := by
  have hn : (0 : ℚ) ≤ (n : ℚ) := by exact_mod_cast h
  have h1 : (0 : ℚ) ≤ (n : ℚ) * 0.1 := by positivity
  have h2 : (0 : ℚ) ≤ (n : ℚ) * 0.2 := by positivity
  have h3 : (0 : ℚ) ≤ (n : ℚ) * 0.3 := by positivity
  have h4 : (0 : ℚ) ≤ (n : ℚ) * 0.4 := by positivity
  rw [pyInt_of_nonneg _ h1, pyInt_of_nonneg _ h2, pyInt_of_nonneg _ h3,
    pyInt_of_nonneg _ h4]
  have f1 := Int.floor_le ((n : ℚ) * 0.1)
  have f2 := Int.floor_le ((n : ℚ) * 0.2)
  have f3 := Int.floor_le ((n : ℚ) * 0.3)
  have f4 := Int.floor_le ((n : ℚ) * 0.4)
  have hsum :
      ((⌊(n : ℚ) * 0.1⌋ + ⌊(n : ℚ) * 0.2⌋ + ⌊(n : ℚ) * 0.3⌋ +
        ⌊(n : ℚ) * 0.4⌋ : ℤ) : ℚ) ≤ (n : ℚ) := by
    push_cast
    linarith
  exact_mod_cast hsum

/-- Membership after update_one: every document is an untouched original
or the rewrite of an original. -/
lemma mem_updateOne {p : α → Bool} {f : α → α} {l : List α} {x : α}
    (hx : x ∈ updateOne p f l) : x ∈ l ∨ ∃ y ∈ l, x = f y := by
  induction l with
  | nil => cases hx
  | cons a as ih =>
      rw [updateOne] at hx
      by_cases hp : p a
      · rw [if_pos hp] at hx
        rcases List.mem_cons.mp hx with h | h
        · exact Or.inr ⟨a, List.mem_cons_self a as, h⟩
        · exact Or.inl (List.mem_cons_of_mem a h)
      · rw [if_neg hp] at hx
        rcases List.mem_cons.mp hx with h | h
        · exact Or.inl (h ▸ List.mem_cons_self a as)
        · rcases ih h with h2 | ⟨y, hy, hxy⟩
          · exact Or.inl (List.mem_cons_of_mem a h2)
          · exact Or.inr ⟨y, List.mem_cons_of_mem a hy, hxy⟩

/-- After delete_one, no match of the filter survives provided the store
held at most one match. -/
lemma find?_deleteOne_eq_none (p : α → Bool) (l : List α)
    (h : (l.filter p).length ≤ 1) : (deleteOne p l).find? p = none := by
  induction l with
  | nil => rfl
  | cons x xs ih =>
      rw [deleteOne]
      by_cases hx : p x
      · rw [if_pos hx]
        rw [List.find?_eq_none]
        intro y hy hpy
        have hmem : y ∈ xs.filter p := List.mem_filter.mpr ⟨hy, hpy⟩
        have hpos : 0 < (xs.filter p).length := List.length_pos.mpr
          (List.ne_nil_of_mem hmem)
        rw [List.filter_cons_of_pos hx] at h
        simp only [List.length_cons] at h
        omega
      · rw [if_neg hx]
        rw [List.find?_cons_of_neg _ hx]
        apply ih
        rw [List.filter_cons_of_neg hx] at h
        exact h

/-- A filter that removed every match leaves find? with nothing. -/
lemma find?_filter_not_eq_none (p : α → Bool) (l : List α) :
    (l.filter (fun x => !(p x))).find? p = none := by
  rw [List.find?_eq_none]
  intro x hx
  have hmem := List.mem_filter.mp hx
  simpa using hmem.2

/-- Claim C7: convert_to_meters multiplies by exactly 0.3048 for feet,
0.0254 for inch and 1 for meter, with no rounding, and is linear in its
value argument: doubling the value doubles the result for every unit. -/
theorem convert_to_meters_factors_and_linear (v : ℚ) (u : UnitType) :
    convert_to_meters v UnitType.feet = v * 0.3048 ∧
    convert_to_meters v UnitType.inch = v * 0.0254 ∧
    convert_to_meters v UnitType.meter = v * 1 ∧
    convert_to_meters (2 * v) u = 2 * convert_to_meters v u := by
  refine ⟨rfl, rfl, ?_, ?_⟩
  · rw [mul_one]
    rfl
  · cases u <;> simp only [convert_to_meters] <;> norm_num [mul_comm, mul_assoc, mul_left_comm]

/-- Claim C3: for positive size the generated visualization takes density
4 for ground and 6 for terrace, total_plants as the floor of size times
density, and each layer count as the floor of total_plants times its
share (0.1, 0.2, 0.3, 0.4), each floored independently and never
redistributed; at 77 square meters with the terrace method total_plants
is 462 and the layer counts 46, 92, 138, 184, which sum to 460 and not
to total_plants. -/
theorem generate_visualization_floor_counts (size : ℚ) (sp : List String)
    (m : PlantingMethod) (hpos : 0 < size) :
    (generate_3d_visualization size sp m).density_per_sqm =
      (if m = PlantingMethod.terrace then 6 else 4) ∧
    (generate_3d_visualization size sp m).total_plants =
      ⌊size * (((if m = PlantingMethod.terrace then 6 else 4) : ℤ) : ℚ)⌋ ∧
    (generate_3d_visualization size sp m).canopy_count =
      ⌊((generate_3d_visualization size sp m).total_plants : ℚ) * 0.1⌋ ∧
    (generate_3d_visualization size sp m).sub_canopy_count =
      ⌊((generate_3d_visualization size sp m).total_plants : ℚ) * 0.2⌋ ∧
    (generate_3d_visualization size sp m).shrub_count =
      ⌊((generate_3d_visualization size sp m).total_plants : ℚ) * 0.3⌋ ∧
    (generate_3d_visualization size sp m).ground_count =
      ⌊((generate_3d_visualization size sp m).total_plants : ℚ) * 0.4⌋ ∧
    (generate_3d_visualization 77 [] PlantingMethod.terrace).total_plants =
      462 ∧
    (generate_3d_visualization 77 [] PlantingMethod.terrace).canopy_count =
      46 ∧
    (generate_3d_visualization 77 [] PlantingMethod.terrace).sub_canopy_count =
      92 ∧
    (generate_3d_visualization 77 [] PlantingMethod.terrace).shrub_count =
      138 ∧
    (generate_3d_visualization 77 [] PlantingMethod.terrace).ground_count =
      184 ∧
    (generate_3d_visualization 77 [] PlantingMethod.terrace).canopy_count +
      (generate_3d_visualization 77 [] PlantingMethod.terrace).sub_canopy_count +
      (generate_3d_visualization 77 [] PlantingMethod.terrace).shrub_count +
      (generate_3d_visualization 77 [] PlantingMethod.terrace).ground_count =
      460 ∧
    (generate_3d_visualization 77 [] PlantingMethod.terrace).canopy_count +
      (generate_3d_visualization 77 [] PlantingMethod.terrace).sub_canopy_count +
      (generate_3d_visualization 77 [] PlantingMethod.terrace).shrub_count +
      (generate_3d_visualization 77 [] PlantingMethod.terrace).ground_count ≠
      (generate_3d_visualization 77 [] PlantingMethod.terrace).total_plants := by
  have hd : (0 : ℚ) < (((if m = PlantingMethod.terrace then 6 else 4) : ℤ) : ℚ) := by
    split <;> norm_num
  have hsd : (0 : ℚ) ≤ size * (((if m = PlantingMethod.terrace then 6 else 4) : ℤ) : ℚ) :=
    le_of_lt (mul_pos hpos hd)
  have htot : (0 : ℤ) ≤ (generate_3d_visualization size sp m).total_plants := by
    rw [gen_total, pyInt_of_nonneg _ hsd]
    exact Int.floor_nonneg.mpr hsd
  have htotq : (0 : ℚ) ≤ ((generate_3d_visualization size sp m).total_plants : ℚ) := by
    exact_mod_cast htot
  refine ⟨rfl, ?_, ?_, ?_, ?_, ?_, terrace77_total, terrace77_canopy,
    terrace77_sub_canopy, terrace77_shrub, terrace77_ground, ?_, ?_⟩
  · rw [gen_total, pyInt_of_nonneg _ hsd]
  · rw [gen_canopy, pyInt_of_nonneg _ (by positivity)]
  · rw [gen_sub_canopy, pyInt_of_nonneg _ (by positivity)]
  · rw [gen_shrub, pyInt_of_nonneg _ (by positivity)]
  · rw [gen_ground, pyInt_of_nonneg _ (by positivity)]
  · rw [terrace77_canopy, terrace77_sub_canopy, terrace77_shrub,
      terrace77_ground]
    norm_num
  · rw [terrace77_canopy, terrace77_sub_canopy, terrace77_shrub,
      terrace77_ground, terrace77_total]
    norm_num

/-- Witness for claim C3 at size 77 with the terrace method. -/
theorem generate_visualization_floor_counts_witness :
    (0 : ℚ) < 77 ∧
    ((generate_3d_visualization 77 [] PlantingMethod.terrace).density_per_sqm =
      (if PlantingMethod.terrace = PlantingMethod.terrace then 6 else 4) ∧
    (generate_3d_visualization 77 [] PlantingMethod.terrace).total_plants =
      ⌊(77 : ℚ) *
        (((if PlantingMethod.terrace = PlantingMethod.terrace then 6 else 4) : ℤ) : ℚ)⌋ ∧
    (generate_3d_visualization 77 [] PlantingMethod.terrace).canopy_count =
      ⌊((generate_3d_visualization 77 [] PlantingMethod.terrace).total_plants : ℚ) * 0.1⌋ ∧
    (generate_3d_visualization 77 [] PlantingMethod.terrace).sub_canopy_count =
      ⌊((generate_3d_visualization 77 [] PlantingMethod.terrace).total_plants : ℚ) * 0.2⌋ ∧
    (generate_3d_visualization 77 [] PlantingMethod.terrace).shrub_count =
      ⌊((generate_3d_visualization 77 [] PlantingMethod.terrace).total_plants : ℚ) * 0.3⌋ ∧
    (generate_3d_visualization 77 [] PlantingMethod.terrace).ground_count =
      ⌊((generate_3d_visualization 77 [] PlantingMethod.terrace).total_plants : ℚ) * 0.4⌋ ∧
    (generate_3d_visualization 77 [] PlantingMethod.terrace).total_plants =
      462 ∧
    (generate_3d_visualization 77 [] PlantingMethod.terrace).canopy_count =
      46 ∧
    (generate_3d_visualization 77 [] PlantingMethod.terrace).sub_canopy_count =
      92 ∧
    (generate_3d_visualization 77 [] PlantingMethod.terrace).shrub_count =
      138 ∧
    (generate_3d_visualization 77 [] PlantingMethod.terrace).ground_count =
      184 ∧
    (generate_3d_visualization 77 [] PlantingMethod.terrace).canopy_count +
      (generate_3d_visualization 77 [] PlantingMethod.terrace).sub_canopy_count +
      (generate_3d_visualization 77 [] PlantingMethod.terrace).shrub_count +
      (generate_3d_visualization 77 [] PlantingMethod.terrace).ground_count =
      460 ∧
    (generate_3d_visualization 77 [] PlantingMethod.terrace).canopy_count +
      (generate_3d_visualization 77 [] PlantingMethod.terrace).sub_canopy_count +
      (generate_3d_visualization 77 [] PlantingMethod.terrace).shrub_count +
      (generate_3d_visualization 77 [] PlantingMethod.terrace).ground_count ≠
      (generate_3d_visualization 77 [] PlantingMethod.terrace).total_plants) :=
  ⟨by decide,
    generate_visualization_floor_counts 77 [] PlantingMethod.terrace (by decide)⟩

/-- Claim C10: whenever the generated total_plants is nonnegative, the
four independently floored layer counts sum to at most total_plants: the
rounding gap only ever undershoots, never overshoots. -/
theorem layer_sum_le_total (size : ℚ) (sp : List String) (m : PlantingMethod)
    (h : 0 ≤ (generate_3d_visualization size sp m).total_plants) :
    (generate_3d_visualization size sp m).canopy_count +
      (generate_3d_visualization size sp m).sub_canopy_count +
      (generate_3d_visualization size sp m).shrub_count +
      (generate_3d_visualization size sp m).ground_count ≤
      (generate_3d_visualization size sp m).total_plants := by
  rw [gen_canopy, gen_sub_canopy, gen_shrub, gen_ground]
  exact floor_shares_le _ h

/-- Witness for claim C10 at size 77 with the terrace method. -/
theorem layer_sum_le_total_witness :
    0 ≤ (generate_3d_visualization 77 [] PlantingMethod.terrace).total_plants ∧
    (generate_3d_visualization 77 [] PlantingMethod.terrace).canopy_count +
      (generate_3d_visualization 77 [] PlantingMethod.terrace).sub_canopy_count +
      (generate_3d_visualization 77 [] PlantingMethod.terrace).shrub_count +
      (generate_3d_visualization 77 [] PlantingMethod.terrace).ground_count ≤
      (generate_3d_visualization 77 [] PlantingMethod.terrace).total_plants :=
  ⟨by simp [terrace77_total],
    layer_sum_le_total 77 [] PlantingMethod.terrace (by simp [terrace77_total])⟩

/-- Counterexample to claim C1: the claim requires authentication to fail
with InvalidToken when the subject claim does not resolve to an existing
Identity, but get_current_user performs no store lookup: with an empty
identity store, a well-signed unexpired token for the absent subject
ghost authenticates successfully. -/
theorem authenticate_no_existence_check_cex :
    get_current_user ⟨some "ghost", 1000, true⟩ 0 = Except.ok "ghost" ∧
    emptyDB.users.find? (fun u => u.id == "ghost") = none ∧
    authenticate_in_state emptyDB ⟨some "ghost", 1000, true⟩ 0 =
      Except.ok "ghost" :=
  ⟨rfl, rfl, rfl⟩

/-- Claim C1 as amended: authenticate succeeds, returning the subject
claim, if and only if the signature verifies, the token is unexpired and
the subject claim is present; it fails with 401 Token expired when past
expiry and with a 401 invalid-token response when the signature or
format is invalid or the subject claim is missing.  No check that the
subject resolves to an existing Identity is performed. -/
theorem authenticate_amended (t : BearerToken) (now : Nat) :
    get_current_user t now = authenticate_amended_spec t now ∧
    ((∃ uid, get_current_user t now = Except.ok uid) ↔
      (t.well_signed = true ∧ now ≤ t.exp ∧ t.sub.isSome = true)) := by
  cases t with
  | mk sub exp ws =>
      constructor
      · cases ws
        · rfl
        · by_cases h : exp < now
          · simp [get_current_user, jwt_decode, authenticate_amended_spec, h]
          · cases sub <;>
              simp [get_current_user, jwt_decode, authenticate_amended_spec, h]
      · cases ws
        · simp [get_current_user, jwt_decode]
        · by_cases h : exp < now
          · simp [get_current_user, jwt_decode, h, Nat.not_le.mpr h]
          · cases sub <;>
              simp [get_current_user, jwt_decode, h, Nat.not_lt.mp h]

/-- Claim C9: authentication is a pure function of the token and the
clock; a success in one store state is the same success in every other
store state (the handle is never read), and the returned identity id is
exactly the token subject claim. -/
theorem authenticate_store_independent (db1 db2 : DB) (t : BearerToken)
    (now : Nat) (uid : String)
    (h : authenticate_in_state db1 t now = Except.ok uid) :
    authenticate_in_state db2 t now = Except.ok uid ∧ t.sub = some uid := by
  refine ⟨h, ?_⟩
  cases t with
  | mk sub exp ws =>
      simp only [authenticate_in_state, get_current_user, jwt_decode] at h
      cases ws
      · simp at h
      · by_cases hlt : exp < now
        · simp [hlt] at h
        · cases sub with
          | none => simp [hlt] at h
          | some a =>
              simp [hlt] at h
              simpa using congrArg some h

/-- Witness for claim C9: the same token authenticates to u1 against a
store that still holds u1 and against the empty store where u1 has been
deleted. -/
theorem authenticate_store_independent_witness :
    authenticate_in_state sampleDB ⟨some "u1", 100, true⟩ 0 =
      Except.ok "u1" ∧
    (authenticate_in_state emptyDB ⟨some "u1", 100, true⟩ 0 =
      Except.ok "u1" ∧
      (BearerToken.mk (some "u1") 100 true).sub = some "u1") :=
  ⟨rfl, authenticate_store_independent sampleDB emptyDB
    ⟨some "u1", 100, true⟩ 0 "u1" rfl⟩

/-- Claim C5: login fails with the one 401 Invalid credentials response
both when no identity carries the email (store db1) and when a matching
identity exists but the password check fails (store db2); the two error
values are identical. -/
theorem login_uniform_invalid_credentials (verify_fn : String → String → Bool)
    (db1 db2 : DB) (email password : String) (now : Nat)
    (h1 : db1.users.find? (fun u => u.email == email) = none)
    (h2 : ∃ user, db2.users.find? (fun u => u.email == email) = some user ∧
      verify_fn password user.password_hash = false) :
    login verify_fn db1 email password now =
      Except.error ⟨401, "Invalid credentials"⟩ ∧
    login verify_fn db2 email password now =
      Except.error ⟨401, "Invalid credentials"⟩ ∧
    login verify_fn db1 email password now =
      login verify_fn db2 email password now := by
  obtain ⟨user, hfind, hverify⟩ := h2
  refine ⟨?_, ?_, ?_⟩ <;> simp [login, h1, hfind, hverify]

/-- Witness for claim C5: empty store versus a store holding the sample
identity under a verifier that rejects the password. -/
theorem login_uniform_invalid_credentials_witness :
    emptyDB.users.find? (fun u => u.email == "asha@example.com") = none ∧
    (∃ user, sampleDB.users.find? (fun u => u.email == "asha@example.com") =
        some user ∧ (fun (_ _ : String) => false) "wrong" user.password_hash = false) ∧
    (login (fun _ _ => false) emptyDB "asha@example.com" "wrong" 0 =
      Except.error ⟨401, "Invalid credentials"⟩ ∧
    login (fun _ _ => false) sampleDB "asha@example.com" "wrong" 0 =
      Except.error ⟨401, "Invalid credentials"⟩ ∧
    login (fun _ _ => false) emptyDB "asha@example.com" "wrong" 0 =
      login (fun _ _ => false) sampleDB "asha@example.com" "wrong" 0) :=
  ⟨rfl, ⟨sampleUser, rfl, rfl⟩,
    login_uniform_invalid_credentials (fun _ _ => false) emptyDB sampleDB
      "asha@example.com" "wrong" 0 rfl ⟨sampleUser, rfl, rfl⟩⟩

/-- Claim C4: when every record carrying the requested id is owned by
identity idB, a request by a different identity idA for the plot 3D
design, the project timeline or the alert resolution fails with the
ownership-blind 404 response and never returns the resource. -/
theorem cross_account_not_found (db : DB) (idA idB rid : String)
    (hne : idA ≠ idB)
    (hplot : ∀ p ∈ db.plots, p.id = rid → p.user_id = idB)
    (hproj : ∀ p ∈ db.projects, p.id = rid → p.user_id = idB)
    (halert : ∀ a ∈ db.alerts, a.id = rid → a.user_id = idB) :
    get_3d_design db rid idA = Except.error ⟨404, "Plot not found"⟩ ∧
    get_project_timeline db rid idA =
      Except.error ⟨404, "Project not found"⟩ ∧
    resolve_alert db rid idA = Except.error ⟨404, "Alert not found"⟩ := by
  have hfp : db.plots.find? (fun p => p.id == rid && p.user_id == idA) = none := by
    rw [List.find?_eq_none]
    intro x hx hpx
    simp only [Bool.and_eq_true, beq_iff_eq] at hpx
    exact hne (hpx.2.symm.trans (hplot x hx hpx.1))
  have hfj : db.projects.find? (fun p => p.id == rid && p.user_id == idA) = none := by
    rw [List.find?_eq_none]
    intro x hx hpx
    simp only [Bool.and_eq_true, beq_iff_eq] at hpx
    exact hne (hpx.2.symm.trans (hproj x hx hpx.1))
  have hfa : db.alerts.find? (fun a => a.id == rid && a.user_id == idA) = none := by
    rw [List.find?_eq_none]
    intro x hx hpx
    simp only [Bool.and_eq_true, beq_iff_eq] at hpx
    exact hne (hpx.2.symm.trans (halert x hx hpx.1))
  refine ⟨?_, ?_, ?_⟩
  · simp [get_3d_design, hfp]
  · simp [get_project_timeline, hfj]
  · simp [resolve_alert, hfa]

/-- Witness for claim C4: alice requests the id r1 whose plot, project
and alert all belong to bob. -/
theorem cross_account_not_found_witness :
    ("alice" ≠ "bob") ∧
    (∀ p ∈ bobDB.plots, p.id = "r1" → p.user_id = "bob") ∧
    (∀ p ∈ bobDB.projects, p.id = "r1" → p.user_id = "bob") ∧
    (∀ a ∈ bobDB.alerts, a.id = "r1" → a.user_id = "bob") ∧
    (get_3d_design bobDB "r1" "alice" =
      Except.error ⟨404, "Plot not found"⟩ ∧
    get_project_timeline bobDB "r1" "alice" =
      Except.error ⟨404, "Project not found"⟩ ∧
    resolve_alert bobDB "r1" "alice" =
      Except.error ⟨404, "Alert not found"⟩) :=
  ⟨by decide, by decide, by decide, by decide,
    cross_account_not_found bobDB "alice" "bob" "r1" (by decide) (by decide)
      (by decide) (by decide)⟩

/-- Claim C6: after delete_user_account, provided user ids were unique
(at most one stored identity per id, as uuid generation guarantees),
neither the identity itself nor any location, plot, project or alert
owned by it can be found in the store. -/
theorem delete_account_cascades (db : DB) (uid : String)
    (huniq : (db.users.filter (fun u => u.id == uid)).length ≤ 1) :
    (delete_user_account db uid).users.find? (fun u => u.id == uid) = none ∧
    (delete_user_account db uid).locations.find?
      (fun l => l.user_id == uid) = none ∧
    (delete_user_account db uid).plots.find?
      (fun p => p.user_id == uid) = none ∧
    (delete_user_account db uid).projects.find?
      (fun p => p.user_id == uid) = none ∧
    (delete_user_account db uid).alerts.find?
      (fun a => a.user_id == uid) = none := by
  refine ⟨?_, ?_, ?_, ?_, ?_⟩
  · exact find?_deleteOne_eq_none _ _ huniq
  · exact find?_filter_not_eq_none (fun l => l.user_id == uid) db.locations
  · exact find?_filter_not_eq_none (fun p => p.user_id == uid) db.plots
  · exact find?_filter_not_eq_none (fun p => p.user_id == uid) db.projects
  · exact find?_filter_not_eq_none (fun a => a.user_id == uid) db.alerts

/-- Witness for claim C6: deleting u1 from a store where u1 owns one
record in every collection leaves nothing of u1 retrievable. -/
theorem delete_account_cascades_witness :
    (ownedDB.users.filter (fun u => u.id == "u1")).length ≤ 1 ∧
    ((delete_user_account ownedDB "u1").users.find?
      (fun u => u.id == "u1") = none ∧
    (delete_user_account ownedDB "u1").locations.find?
      (fun l => l.user_id == "u1") = none ∧
    (delete_user_account ownedDB "u1").plots.find?
      (fun p => p.user_id == "u1") = none ∧
    (delete_user_account ownedDB "u1").projects.find?
      (fun p => p.user_id == "u1") = none ∧
    (delete_user_account ownedDB "u1").alerts.find?
      (fun a => a.user_id == "u1") = none) :=
  ⟨by decide, delete_account_cascades ownedDB "u1" (by decide)⟩

/-- The concrete instantiation class contains the ASCII digits 1-9. -/
lemma sampleDigitClass_ascii (c : Char) (hc : isDigit19 c = true) :
    sampleDigitClass c = true := by
  simp only [isDigit19, Bool.and_eq_true, decide_eq_true_eq] at hc
  simp only [sampleDigitClass, Bool.or_eq_true, Bool.and_eq_true,
    decide_eq_true_eq]
  exact Or.inl ⟨by omega, by omega⟩

/-- The regex body and the amended digit-body wording agree on every
character list, for every digit class containing the ASCII digits 1-9. -/
lemma core_eq_amended (d : Char → Bool)
    (hAscii : ∀ c, isDigit19 c = true → d c = true) (ds : List Char) :
    matchesPhoneCore d ds = amendedPhoneCore d ds := by
  cases ds with
  | nil => rfl
  | cons c rest =>
      show (isDigit19 c && decide (rest.length ≤ 15) && rest.all d) = _
      rw [Bool.eq_iff_iff]
      simp only [amendedPhoneCore, Bool.and_eq_true, decide_eq_true_eq,
        List.all_cons, List.length_cons]
      constructor
      · rintro ⟨⟨h19, hlen⟩, hall⟩
        exact ⟨⟨⟨by omega, by omega⟩, ⟨hAscii c h19, hall⟩⟩, h19⟩
      · rintro ⟨⟨⟨-, hlen⟩, -, hall⟩, h19⟩
        exact ⟨⟨h19, by omega⟩, hall⟩

/-- A character list ending in a newline is never all digits, for any
digit class excluding the newline. -/
lemma all_digit_false_of_newline (d : Char → Bool) (hNl : d '\n' = false)
    (l : List Char) (h : l.getLast? = some '\n') : l.all d = false := by
  induction l with
  | nil => simp at h
  | cons a as ih =>
      cases as with
      | nil =>
          have ha : a = '\n' := by simpa using h
          subst ha
          simp [hNl]
      | cons b bs =>
          rw [List.getLast?_cons_cons] at h
          rw [List.all_cons, ih h, Bool.and_false]

/-- The regex body rejects any text ending in a newline. -/
lemma matchesPhoneCore_newline (d : Char → Bool) (hNl : d '\n' = false)
    (ds : List Char) (h : ds.getLast? = some '\n') :
    matchesPhoneCore d ds = false := by
  cases ds with
  | nil => simp at h
  | cons c rest =>
      cases rest with
      | nil =>
          have hc : c = '\n' := by simpa using h
          subst hc
          rfl
      | cons e es =>
          rw [List.getLast?_cons_cons] at h
          show (isDigit19 c && decide ((e :: es).length ≤ 15) &&
            (e :: es).all d) = false
          rw [all_digit_false_of_newline d hNl _ h, Bool.and_false]

/-- Stripping the optional plus cannot rescue a trailing newline. -/
lemma stripPlus_core_newline (d : Char → Bool) (hNl : d '\n' = false)
    (cs : List Char) (h : cs.getLast? = some '\n') :
    matchesPhoneCore d (stripPlus cs) = false := by
  cases cs with
  | nil => simp at h
  | cons c rest =>
      cases rest with
      | nil =>
          have hc : c = '\n' := by simpa using h
          subst hc
          rfl
      | cons e es =>
          rw [List.getLast?_cons_cons] at h
          show matchesPhoneCore d
            (if c = '+' then e :: es else c :: e :: es) = false
          by_cases hc : c = '+'
          · rw [if_pos hc]
            exact matchesPhoneCore_newline d hNl _ h
          · rw [if_neg hc]
            refine matchesPhoneCore_newline d hNl _ ?_
            rw [List.getLast?_cons_cons]
            exact h

/-- The source regex equals the core applied after newline stripping. -/
lemma validate_eq_core_strip (d : Char → Bool) (hNl : d '\n' = false)
    (phone : String) :
    validate_phone_number d phone =
      matchesPhoneCore d (stripPlus (stripTrailingNewline phone.data)) := by
  rw [validate_phone_number, stripTrailingNewline]
  by_cases h : phone.data.getLast? = some '\n'
  · rw [if_pos h, stripPlus_core_newline d hNl _ h]
    simp [h]
  · rw [if_neg h]
    simp [h]

/-- The regex and the amended wording agree on every string, for every
digit class containing the ASCII digits 1-9 and not the newline. -/
lemma validate_eq_amended (d : Char → Bool)
    (hAscii : ∀ c, isDigit19 c = true → d c = true) (hNl : d '\n' = false)
    (phone : String) :
    validate_phone_number d phone = amendedPhonePattern d phone := by
  rw [validate_eq_core_strip d hNl, amendedPhonePattern,
    core_eq_amended d hAscii]

/-- Counterexample to claim C2, evaluated at sampleDigitClass, which
agrees with the digit class of the re module on every character these
strings contain.  The string 0 is an optional plus sign followed by one
digit, so the claimed pattern accepts it, yet the source regex requires
a leading digit 1-9 and register rejects it with the invalid-phone
response even for a fresh email.  Conversely, the string of a digit one
followed by a newline is not of the claimed shape, yet the dollar
anchor of the source regex matches before the trailing newline and
register accepts it; and the string of an ASCII one followed by an
Arabic-Indic two is not 1 to 16 digits in the claimed (ASCII) reading,
yet the regex digit metacharacter covers every Unicode decimal digit
and register accepts it. -/
theorem phone_pattern_cex :
    specPhonePattern "0" = true ∧
    validate_phone_number sampleDigitClass "0" = false ∧
    register (fun p => p) sampleDigitClass emptyDB
      ⟨"Zed", 20, "zed@example.com", "0", "pw"⟩ "id1" 0 =
      Except.error ⟨400, "Invalid phone number format"⟩ ∧
    specPhonePattern "1\n" = false ∧
    validate_phone_number sampleDigitClass "1\n" = true ∧
    (register (fun p => p) sampleDigitClass emptyDB
      ⟨"Zed", 20, "zed@example.com", "1\n", "pw"⟩ "id1" 0).isOk = true ∧
    specPhonePattern "1٢" = false ∧
    validate_phone_number sampleDigitClass "1٢" = true ∧
    (register (fun p => p) sampleDigitClass emptyDB
      ⟨"Zed", 20, "zed@example.com", "1٢", "pw"⟩ "id1" 0).isOk = true :=
  ⟨rfl, rfl, rfl, rfl, rfl, rfl, rfl, rfl, rfl⟩

/-- Claim C2 as amended: for the digit class the regex metacharacter
denotes (abstract, assumed only to contain the ASCII digits 1-9 and not
the newline, as the Unicode Nd class does) and a fresh email, register
accepts a phone number if and only if, after discarding one trailing
newline when present, it is an optional leading plus sign followed by 1
to 16 decimal digits of that class, the first of which is an ASCII
digit one through nine; otherwise it fails with the 400 Invalid phone
number format response.  validate_phone_number decides exactly that
amended pattern. -/
theorem register_phone_amended (hash_fn : String → String)
    (d : Char → Bool) (hAscii : ∀ c, isDigit19 c = true → d c = true)
    (hNl : d '\n' = false) (db : DB) (u : UserCreate) (new_id : String)
    (now : Nat)
    (hemail : db.users.find? (fun x => x.email == u.email) = none) :
    validate_phone_number d u.phone_number =
      amendedPhonePattern d u.phone_number ∧
    (register hash_fn d db u new_id now).isOk =
      amendedPhonePattern d u.phone_number ∧
    (amendedPhonePattern d u.phone_number = false →
      register hash_fn d db u new_id now =
        Except.error ⟨400, "Invalid phone number format"⟩) := by
  refine ⟨validate_eq_amended d hAscii hNl u.phone_number, ?_, ?_⟩
  · cases hv : validate_phone_number d u.phone_number with
    | false =>
        rw [← validate_eq_amended d hAscii hNl, hv]
        simp [register, hemail, hv, Except.isOk, Except.toBool]
    | true =>
        rw [← validate_eq_amended d hAscii hNl, hv]
        simp [register, hemail, hv, Except.isOk, Except.toBool]
  · intro hbad
    rw [← validate_eq_amended d hAscii hNl] at hbad
    simp [register, hemail, hbad]

/-- Witness for claim C2 at a fresh email and the mixed ASCII and
Arabic-Indic phone number the program accepts, with the digit class
instantiated at sampleDigitClass. -/
theorem register_phone_amended_witness :
    (∀ c, isDigit19 c = true → sampleDigitClass c = true) ∧
    sampleDigitClass '\n' = false ∧
    emptyDB.users.find?
      (fun x => x.email == (UserCreate.mk "Zed" 20 "zed@example.com"
        "1٢" "pw").email) = none ∧
    (validate_phone_number sampleDigitClass
      (UserCreate.mk "Zed" 20 "zed@example.com" "1٢" "pw").phone_number =
      amendedPhonePattern sampleDigitClass
        (UserCreate.mk "Zed" 20 "zed@example.com" "1٢" "pw").phone_number ∧
    (register (fun p => p) sampleDigitClass emptyDB
      (UserCreate.mk "Zed" 20 "zed@example.com" "1٢" "pw")
      "id1" 0).isOk =
      amendedPhonePattern sampleDigitClass
        (UserCreate.mk "Zed" 20 "zed@example.com" "1٢" "pw").phone_number ∧
    (amendedPhonePattern sampleDigitClass
        (UserCreate.mk "Zed" 20 "zed@example.com" "1٢" "pw").phone_number =
        false →
      register (fun p => p) sampleDigitClass emptyDB
        (UserCreate.mk "Zed" 20 "zed@example.com" "1٢" "pw") "id1" 0 =
        Except.error ⟨400, "Invalid phone number format"⟩)) :=
  ⟨sampleDigitClass_ascii, rfl, rfl,
    register_phone_amended (fun p => p) sampleDigitClass
      sampleDigitClass_ascii rfl emptyDB
      (UserCreate.mk "Zed" 20 "zed@example.com" "1٢" "pw") "id1" 0 rfl⟩

/-- Claim C8: a resolved alert stays resolved under every write the
source ever performs on the alerts collection; the only mutation of the
resolved flag sets it to true, inserts carry fresh ids, and deletion
removes records without unresolving any. -/
theorem resolved_is_terminal (op : AlertOp) (db : DB) (i : String)
    (hfresh : ∀ a uid nid ok, op = AlertOp.create a uid nid ok →
      ∀ x ∈ db.alerts, x.id ≠ nid)
    (hex : ∃ x ∈ db.alerts, x.id = i)
    (hres : ∀ x ∈ db.alerts, x.id = i → x.resolved = true) :
    ∀ x ∈ (applyAlertOp op db).alerts, x.id = i → x.resolved = true := by
  intro x hx hxi
  cases op with
  | create alert uid nid ok =>
      have hins : ∀ y ∈ db.alerts ++
          [({ id := nid, user_id := uid, project_id := alert.project_id,
              alert_type := alert.alert_type, severity := alert.severity,
              message := alert.message, resolved := false,
              sms_sent := false } : Alert)], y.id = i → y.resolved = true := by
        intro y hy hyi
        rcases List.mem_append.mp hy with hy1 | hy2
        · exact hres y hy1 hyi
        · obtain ⟨z, hz, hzi⟩ := hex
          have hyrec : y = _ := List.mem_singleton.mp hy2
          rw [hyrec] at hyi
          have hni : nid = i := hyi
          exact absurd (hzi.trans hni.symm)
            (hfresh alert uid nid ok rfl z hz)
      simp only [applyAlertOp, create_alert] at hx
      cases ok with
      | false => exact hins x hx hxi
      | true =>
          simp only [Bool.true_eq_false, if_neg, ite_true] at hx
          rcases mem_updateOne hx with hmem | ⟨y, hy, hxy⟩
          · exact hins x hmem hxi
          · rw [hxy] at hxi ⊢
            exact hins y hy hxi
  | resolve aid uid =>
      simp only [applyAlertOp, resolve_alert] at hx
      by_cases hsome :
          (db.alerts.find? (fun a => a.id == aid && a.user_id == uid)).isSome
      · rw [if_pos hsome] at hx
        simp only [Except.toOption, Option.getD] at hx
        rcases mem_updateOne hx with hmem | ⟨y, hy, hxy⟩
        · exact hres x hmem hxi
        · rw [hxy]
      · rw [if_neg hsome] at hx
        simp only [Except.toOption, Option.getD] at hx
        exact hres x hx hxi
  | deleteAccount uid =>
      simp only [applyAlertOp, delete_user_account] at hx
      exact hres x (List.mem_of_mem_filter hx) hxi

/-- Witness for claim C8: resolving the already-resolved alert a1 again
leaves every alert with id a1 resolved. -/
theorem resolved_is_terminal_witness :
    (∀ a uid nid ok, AlertOp.resolve "a1" "u1" = AlertOp.create a uid nid ok →
      ∀ x ∈ resolvedDB.alerts, x.id ≠ nid) ∧
    (∃ x ∈ resolvedDB.alerts, x.id = "a1") ∧
    (∀ x ∈ resolvedDB.alerts, x.id = "a1" → x.resolved = true) ∧
    (∀ x ∈ (applyAlertOp (AlertOp.resolve "a1" "u1") resolvedDB).alerts,
      x.id = "a1" → x.resolved = true) :=
  And.intro (fun _ _ _ _ h => nomatch h)
    (And.intro (by decide)
      (And.intro (by decide)
        (resolved_is_terminal (AlertOp.resolve "a1" "u1") resolvedDB "a1"
          (fun _ _ _ _ h => nomatch h) (by decide) (by decide))))

end Miya
